import Mathlib

/-!
# TeamTone core: verification of the color-matching engine

A shallow embedding of the TeamTone repository's color metric and
ranking/matching engine (`compare_colors.py`, `filament_manufacturers.py`,
`filament_scoring.py`, `filament_colors.py`).

Python strings are modelled as `List Char` (restricted to ASCII data, which is
all the repository manipulates).  Python exceptions are modelled with `Option`
or dedicated result types.  Floating-point computations are modelled over `ℝ`;
the properties proved below (exact zeros, sign and range facts, control flow)
are insensitive to rounding.
-/

namespace TeamTone

/-! ## Python string and integer-parsing primitives -/

/-- ASCII whitespace stripped by Python's `int(str, base)` conversion. -/
def pyIsSpace (c : Char) : Bool :=
  c == ' ' || c == '\t' || c == '\n' || c == '\r' || c == '\x0b' || c == '\x0c'

/-- The characters Python `int(s, 16)` accepts as hexadecimal digits
(ASCII; exotic unicode digits are outside the model). -/
def isHexDigit (c : Char) : Bool :=
  decide (('0' ≤ c ∧ c ≤ '9') ∨ ('a' ≤ c ∧ c ≤ 'f') ∨ ('A' ≤ c ∧ c ≤ 'F'))

/-- Numeric value of a hexadecimal digit character. -/
def hexVal (c : Char) : Nat :=
  if '0' ≤ c ∧ c ≤ '9' then c.toNat - '0'.toNat
  else if 'a' ≤ c ∧ c ≤ 'f' then c.toNat - 'a'.toNat + 10
  else c.toNat - 'A'.toNat + 10

/-- Digits of a base-16 literal after the first digit: Python allows a single
underscore between two digits (`1_2`), never leading, trailing or doubled.
`acc` is the value of the digits already consumed. -/
def pyHexDigitsAux : List Char → Nat → Option Nat
  | [], acc => some acc
  | c :: rest, acc =>
    if c = '_' then
      match rest with
      | c2 :: rest2 =>
        if isHexDigit c2 then pyHexDigitsAux rest2 (acc * 16 + hexVal c2) else none
      | [] => none
    else if isHexDigit c then pyHexDigitsAux rest (acc * 16 + hexVal c) else none

/-- A nonempty run of hexadecimal digits (with Python's underscore rule),
as accepted by `int(s, 16)` after sign and prefix handling. -/
def pyHexDigits : List Char → Option Nat
  | [] => none
  | c :: rest => if isHexDigit c then pyHexDigitsAux rest (hexVal c) else none

/-- Body of a base-16 literal: an optional `0x`/`0X` prefix (an underscore may
directly follow the prefix) and then digits. -/
def pyHexBody (s : List Char) : Option Nat :=
  match s with
  | c0 :: c1 :: rest =>
    if c0 = '0' ∧ (c1 = 'x' ∨ c1 = 'X') then
      match rest with
      | c2 :: rest2 => if c2 = '_' then pyHexDigits rest2 else pyHexDigits rest
      | [] => none
    else pyHexDigits s
  | _ => pyHexDigits s

/-- Strip ASCII whitespace from both ends, as Python `int(s, 16)` does. -/
def pyStripWs (s : List Char) : List Char :=
  ((s.dropWhile pyIsSpace).reverse.dropWhile pyIsSpace).reverse

/-- Python `int(s, 16)` on a string: strip whitespace, optional sign, optional
`0x` prefix, then hexadecimal digits; `none` models the raised `ValueError`. -/
def pyIntHex (s : List Char) : Option Int :=
  match pyStripWs s with
  | [] => none
  | c :: rest =>
    if c = '+' then (pyHexBody rest).map (fun n => (n : Int))
    else if c = '-' then (pyHexBody rest).map (fun n => -(n : Int))
    else (pyHexBody (c :: rest)).map (fun n => (n : Int))

/-- Python slice `s[i:i+2]`. -/
def pySlice2 (s : List Char) (i : Nat) : List Char := (s.drop i).take 2

/-- Python `s.lstrip('#')`: drop every leading `'#'`. -/
def lstripHash (s : List Char) : List Char := s.dropWhile (fun c => c == '#')

/-! ## `compare_colors.hex_to_rgb` and `compare_colors.rgb_to_hex` -/

/-- `hex_to_rgb` from `compare_colors.py`:
strip leading `#`, then `int(hex_color[i:i+2], 16) for i in (0, 2, 4)`.
`none` models the `ValueError` raised by `int` on an unparseable slice. -/
def hex_to_rgb (s : List Char) : Option (Int × Int × Int) :=
  let h := lstripHash s
  match pyIntHex (pySlice2 h 0), pyIntHex (pySlice2 h 2), pyIntHex (pySlice2 h 4) with
  | some r, some g, some b => some (r, g, b)
  | _, _, _ => none

/-- Lowercase hexadecimal digit character, as produced by Python's `%x`. -/
def hexChar (n : Nat) : Char :=
  if n < 10 then Char.ofNat ('0'.toNat + n) else Char.ofNat ('a'.toNat + (n - 10))

/-- Big-endian lowercase hexadecimal digits of `n` (no padding). -/
def natToHex (n : Nat) : List Char :=
  if n < 16 then [hexChar n]
  else natToHex (n / 16) ++ [hexChar (n % 16)]
  decreasing_by exact Nat.div_lt_self (by omega) (by omega)

/-- Python's `{:02x}` format on a nonnegative integer: hexadecimal digits,
zero-padded on the left to width 2. -/
def format02x (n : Nat) : List Char :=
  let d := natToHex n
  if d.length < 2 then '0' :: d else d

/-- `rgb_to_hex` from `compare_colors.py`: `f"#{r:02x}{g:02x}{b:02x}"`
(channels are byte values, so the Python ints are nonnegative). -/
def rgb_to_hex (r g b : Nat) : List Char :=
  '#' :: (format02x r ++ format02x g ++ format02x b)

/-! ## Color distance metrics (`compare_colors.py`), over `ℝ` -/

noncomputable section

/-- The inner `gamma_correct` of `rgb_to_lab`: sRGB gamma expansion. -/
def gammaCorrect (channel : ℝ) : ℝ :=
  if channel ≤ 0.04045 then channel / 12.92
  else ((channel + 0.055) / 1.055) ^ (2.4 : ℝ)

/-- The inner `f` of `rgb_to_lab`: the CIELAB cube-root/linear transfer. -/
def labF (t : ℝ) : ℝ :=
  let delta : ℝ := 6 / 29
  if t > delta ^ (3 : ℕ) then t ^ ((1 : ℝ) / 3) else t / (3 * delta ^ (2 : ℕ)) + 4 / 29

/-- `rgb_to_lab` from `compare_colors.py`: sRGB → linear → XYZ (D65) → LAB. -/
def rgb_to_lab (r g b : ℤ) : ℝ × ℝ × ℝ :=
  let rn : ℝ := (r : ℝ) / 255.0
  let gn : ℝ := (g : ℝ) / 255.0
  let bn : ℝ := (b : ℝ) / 255.0
  let rl := gammaCorrect rn
  let gl := gammaCorrect gn
  let bl := gammaCorrect bn
  let x := rl * 0.4124564 + gl * 0.3575761 + bl * 0.1804375
  let y := rl * 0.2126729 + gl * 0.7151522 + bl * 0.0721750
  let z := rl * 0.0193339 + gl * 0.1191920 + bl * 0.9503041
  let x := x / 0.95047
  let y := y / 1.00000
  let z := z / 1.08883
  let L := 116 * labF y - 16
  let a := 500 * (labF x - labF y)
  let bLab := 200 * (labF y - labF z)
  (L, a, bLab)

/-- `euclidean_distance_rgb` from `compare_colors.py`; `none` models the
`ValueError` propagated from `hex_to_rgb`. -/
def euclidean_distance_rgb (hex1 hex2 : List Char) : Option ℝ :=
  match hex_to_rgb hex1, hex_to_rgb hex2 with
  | some (r1, g1, b1), some (r2, g2, b2) =>
    some (Real.sqrt (((r2 - r1 : ℤ) : ℝ) ^ 2 + ((g2 - g1 : ℤ) : ℝ) ^ 2 +
      ((b2 - b1 : ℤ) : ℝ) ^ 2))
  | _, _ => none

/-- `weighted_rgb_distance` from `compare_colors.py`. -/
def weighted_rgb_distance (hex1 hex2 : List Char) : Option ℝ :=
  match hex_to_rgb hex1, hex_to_rgb hex2 with
  | some (r1, g1, b1), some (r2, g2, b2) =>
    let rMean : ℝ := ((r1 + r2 : ℤ) : ℝ) / 2
    let deltaR : ℝ := ((r2 - r1 : ℤ) : ℝ)
    let deltaG : ℝ := ((g2 - g1 : ℤ) : ℝ)
    let deltaB : ℝ := ((b2 - b1 : ℤ) : ℝ)
    let weightR := 2 + rMean / 256
    let weightG : ℝ := 4.0
    let weightB := 2 + (255 - rMean) / 256
    some (Real.sqrt (weightR * deltaR ^ 2 + weightG * deltaG ^ 2 + weightB * deltaB ^ 2))
  | _, _ => none

/-- `delta_e_cie76` from `compare_colors.py`: Euclidean distance in LAB. -/
def delta_e_cie76 (hex1 hex2 : List Char) : Option ℝ :=
  match hex_to_rgb hex1, hex_to_rgb hex2 with
  | some (r1, g1, b1), some (r2, g2, b2) =>
    let lab1 := rgb_to_lab r1 g1 b1
    let lab2 := rgb_to_lab r2 g2 b2
    some (Real.sqrt ((lab2.1 - lab1.1) ^ 2 + (lab2.2.1 - lab1.2.1) ^ 2 +
      (lab2.2.2 - lab1.2.2) ^ 2))
  | _, _ => none

/-- `delta_e_cie94` from `compare_colors.py`. -/
def delta_e_cie94 (hex1 hex2 : List Char) : Option ℝ :=
  match hex_to_rgb hex1, hex_to_rgb hex2 with
  | some (r1, g1, b1), some (r2, g2, b2) =>
    let lab1 := rgb_to_lab r1 g1 b1
    let lab2 := rgb_to_lab r2 g2 b2
    let deltaL := lab1.1 - lab2.1
    let c1 := Real.sqrt (lab1.2.1 ^ 2 + lab1.2.2 ^ 2)
    let c2 := Real.sqrt (lab2.2.1 ^ 2 + lab2.2.2 ^ 2)
    let deltaC := c1 - c2
    let deltaA := lab1.2.1 - lab2.2.1
    let deltaB := lab1.2.2 - lab2.2.2
    let deltaH := Real.sqrt (max 0 (deltaA ^ 2 + deltaB ^ 2 - deltaC ^ 2))
    let sl : ℝ := 1.0
    let sc : ℝ := 1.0 + 0.045 * c1
    let sh : ℝ := 1.0 + 0.015 * c1
    some (Real.sqrt ((deltaL / (1.0 * sl)) ^ 2 + (deltaC / (1.0 * sc)) ^ 2 +
      (deltaH / (1.0 * sh)) ^ 2))
  | _, _ => none

/-! ## `compare_colors.color_similarity_percentage` -/

/-- The outcome of `color_similarity_percentage`: a float, a `ValueError`
propagated from `hex_to_rgb` (`parseErr`), or the `ValueError("Unknown
method: ...")` raised for an unrecognized method name (`unknownMethod`). -/
inductive SimResult where
  | ok (v : ℝ)
  | parseErr
  | unknownMethod
  deriving DecidableEq

/-- Method-name string `'delta_e_cie76'`. -/
def methodCie76 : List Char := (r"delta_e_cie76").data

/-- Method-name string `'delta_e_cie94'`. -/
def methodCie94 : List Char := (r"delta_e_cie94").data

/-- Method-name string `'rgb'`. -/
def methodRgb : List Char := (r"rgb").data

/-- Method-name string `'weighted_rgb'`. -/
def methodWeightedRgb : List Char := (r"weighted_rgb").data

/-- The shared tail of `color_similarity_percentage`:
`similarity = max(0, 100 * (1 - distance / max_distance))`. -/
def simFrom : Option ℝ → ℝ → SimResult
  | some d, maxDistance => .ok (max 0 (100 * (1 - d / maxDistance)))
  | none, _ => .parseErr

/-- `color_similarity_percentage` from `compare_colors.py`: dispatch on the
method name, pairing each distance function with its normalizer. -/
def color_similarity_percentage (hex1 hex2 colorMethod : List Char) : SimResult :=
  if colorMethod = methodCie76 then simFrom (delta_e_cie76 hex1 hex2) 100.0
  else if colorMethod = methodCie94 then simFrom (delta_e_cie94 hex1 hex2) 100.0
  else if colorMethod = methodRgb then simFrom (euclidean_distance_rgb hex1 hex2) 441.67
  else if colorMethod = methodWeightedRgb then simFrom (weighted_rgb_distance hex1 hex2) 765.0
  else .unknownMethod

/-- `color_similarity_percentage` at its default method `'delta_e_cie76'`,
as called by `filament_colors.py`; `none` is a propagated parse error. -/
def similarity76 (hex1 hex2 : List Char) : Option ℝ :=
  (delta_e_cie76 hex1 hex2).map (fun d => max 0 (100 * (1 - d / 100.0)))

end

/-! ## `filament_manufacturers.py` -/

/-- Python `str.lower()` on an ASCII character. -/
def pyLowerChar (c : Char) : Char :=
  if 'A' ≤ c ∧ c ≤ 'Z' then Char.ofNat (c.toNat + 32) else c

/-- Python `str.lower()` on an ASCII string. -/
def pyLower (s : List Char) : List Char := s.map pyLowerChar

/-- Python `str.upper()` on an ASCII character. -/
def pyUpperChar (c : Char) : Char :=
  if 'a' ≤ c ∧ c ≤ 'z' then Char.ofNat (c.toNat - 32) else c

/-- Python `str.upper()` on an ASCII string. -/
def pyUpper (s : List Char) : List Char := s.map pyUpperChar

/-- Python `a in b` on strings: contiguous-substring containment. -/
def pyIn (a b : List Char) : Bool := decide (a <:+: b)

/-- Modelled from the spec: the manufacturer rank table `TOP_MANUFACTURERS`.
The repository loads it at import time from `filament_manufacturers.yaml`
(filenames with `.yaml` dropped, `_` → space, title-cased); the data file is
not among the sources, and the spec (§3, §8) together with the repository's
`test_filament_manufacturers.py` pin the resulting ordered list of ten names
used here. -/
def TOP_MANUFACTURERS : List (List Char) :=
  [(r"Polymaker").data, (r"Hatchbox").data, (r"Esun").data, (r"Prusament").data,
   (r"Sunlu").data, (r"Overture").data, (r"Matterhackers").data, (r"Colorfabb").data,
   (r"Eryone").data, (r"Atomic Filament").data]

/-- The per-candidate condition shared by `is_top_manufacturer` and
`get_manufacturer_rank`: `top_mfr.lower() in manufacturer_lower or
manufacturer_lower in top_mfr.lower()`. -/
def mfrMatches (manufacturerLower topMfr : List Char) : Bool :=
  pyIn (pyLower topMfr) manufacturerLower || pyIn manufacturerLower (pyLower topMfr)

/-- `is_top_manufacturer`, parametrized by the rank table (the source reads
the module-level `TOP_MANUFACTURERS`; the loop body is translated verbatim). -/
def is_top_manufacturer_in (table : List (List Char)) (manufacturer : List Char) : Bool :=
  if table.isEmpty then false
  else table.any (fun topMfr => mfrMatches (pyLower manufacturer) topMfr)

/-- `is_top_manufacturer` from `filament_manufacturers.py`. -/
def is_top_manufacturer (manufacturer : List Char) : Bool :=
  is_top_manufacturer_in TOP_MANUFACTURERS manufacturer

/-- `get_manufacturer_rank`, parametrized by the rank table: first match in
the `enumerate` loop wins, 1-indexed; 999 is the unranked sentinel. -/
def get_manufacturer_rank_in (table : List (List Char)) (manufacturer : List Char) : Nat :=
  if table.isEmpty then 999
  else
    match table.findIdx? (fun topMfr => mfrMatches (pyLower manufacturer) topMfr) with
    | some i => i + 1
    | none => 999

/-- `get_manufacturer_rank` from `filament_manufacturers.py`. -/
def get_manufacturer_rank (manufacturer : List Char) : Nat :=
  get_manufacturer_rank_in TOP_MANUFACTURERS manufacturer

/-! ## `filament_scoring.py` -/

noncomputable section

/-- `RANK_MULTIPLIER` from `filament_scoring.py`. -/
def RANK_MULTIPLIER : ℝ := 0.56

/-- `calculate_manufacturer_bonus` from `filament_scoring.py`. -/
def calculate_manufacturer_bonus (manufacturer : List Char) : ℝ :=
  let rank := get_manufacturer_rank manufacturer
  if rank = 999 then 0.0 else ((11 - (rank : ℤ) : ℤ) : ℝ) * RANK_MULTIPLIER

/-- `calculate_weighted_score` from `filament_scoring.py`. -/
def calculate_weighted_score (similarity : ℝ) (manufacturer : List Char) : ℝ :=
  similarity + calculate_manufacturer_bonus manufacturer

end

/-! ## Filament records (`filament_colors.py` data model) -/

/-- A filament record as built by `filament_colors.py` (`manufacturer`,
`material`, `color`, `hex`, `source` always present; `temp_hotend`,
`temp_bed`, `link` optional).  Python dict equality on these records is
value equality, matching the derived `DecidableEq`. -/
structure Filament where
  manufacturer : List Char
  material : List Char
  color : List Char
  hex : List Char
  source : Option (List Char) := none
  tempHotend : Option Int := none
  tempBed : Option Int := none
  link : Option (List Char) := none
  deriving DecidableEq, Repr

/-- The per-color data stored in the catalog (`color_data` dict): every key
is optional. -/
structure ColorData where
  hex : Option (List Char) := none
  source : Option (List Char) := none
  tempHotend : Option Int := none
  tempBed : Option Int := none
  link : Option (List Char) := none
  deriving DecidableEq, Repr

/-- The nested `ALL_FILAMENTS` catalog, in iteration order:
manufacturer → material → color name → color data. -/
def Catalog : Type :=
  List (List Char × List (List Char × List (List Char × ColorData)))

/-! ## `filament_scoring.get_best_top_manufacturer_match` -/

noncomputable section

/-- Python `max(iterable, key=k)`: left fold keeping the current best and
replacing it only on a strictly larger key, so the FIRST maximal element in
iteration order is returned. -/
def pyMaxBy {α : Type} (key : α → ℝ) : α → List α → α
  | best, [] => best
  | best, x :: xs => if key best < key x then pyMaxBy key x xs else pyMaxBy key best xs

/-- `get_best_top_manufacturer_match` from `filament_scoring.py`:
filter out already-displayed records and non-top manufacturers, then take the
`max` by weighted score; `none` models the `(None, None)` sentinel. -/
def get_best_top_manufacturer_match (matchList : List (Filament × ℝ))
    (displayed : List Filament) : Option (Filament × ℝ) :=
  let topMfrMatches := matchList.filter
    (fun p => !(displayed.contains p.1) && is_top_manufacturer p.1.manufacturer)
  match topMfrMatches with
  | [] => none
  | m :: rest =>
    some (pyMaxBy (fun p => calculate_weighted_score p.2 p.1.manufacturer) m rest)

end

/-! ## `filament_colors.get_filaments_by_hex` -/

/-- Python `s.strip('#')`: drop `'#'` from both ends. -/
def stripHash (s : List Char) : List Char :=
  ((s.dropWhile (fun c => c == '#')).reverse.dropWhile (fun c => c == '#')).reverse

/-- The match test and record construction done inside the triple loop of
`get_filaments_by_hex` for a single catalog entry. -/
def mkHexMatch (hexNormalized : List Char) (mfrKey matKey colorKey : List Char)
    (colorData : ColorData) : Option Filament :=
  let storedHex := pyUpper (stripHash (colorData.hex.getD []))
  if storedHex = hexNormalized then
    some { manufacturer := mfrKey, material := matKey, color := colorKey,
           hex := '#' :: storedHex, source := colorData.source,
           tempHotend := colorData.tempHotend, tempBed := colorData.tempBed,
           link := colorData.link }
  else none

/-- `get_filaments_by_hex` from `filament_colors.py`, parametrized by the
catalog (the source iterates the module-level `ALL_FILAMENTS`): normalize the
query, scan the nested catalog in iteration order, append every exact match. -/
def get_filaments_by_hex (catalog : Catalog) (hexCode : List Char) : List Filament :=
  let hexNormalized := pyUpper (stripHash hexCode)
  catalog.flatMap (fun mfrEntry =>
    mfrEntry.2.flatMap (fun matEntry =>
      matEntry.2.filterMap (fun colorEntry =>
        mkHexMatch hexNormalized mfrEntry.1 matEntry.1 colorEntry.1 colorEntry.2)))

/-- The nested catalog flattened in iteration order:
(manufacturer key, material key, color key, color data) per entry. -/
def flattenCatalog (catalog : Catalog) :
    List (List Char × List Char × List Char × ColorData) :=
  catalog.flatMap (fun mfrEntry =>
    mfrEntry.2.flatMap (fun matEntry =>
      matEntry.2.map (fun colorEntry =>
        (mfrEntry.1, matEntry.1, colorEntry.1, colorEntry.2))))

/-! ## `filament_colors.find_similar_filament_colors` -/

/-- Python slice `l[:k]` for an arbitrary (possibly negative) stop `k`. -/
def pySliceTo {α : Type} (l : List α) (k : ℤ) : List α :=
  if k < 0 then l.take ((l.length : ℤ) + k).toNat else l.take k.toNat

/-- The ordering used by `matches.sort(key=lambda x: x[1], reverse=True)`:
descending by similarity. -/
def simGe (a b : Filament × ℝ) : Prop := b.2 ≤ a.2

noncomputable instance : DecidableRel simGe :=
  fun a b => inferInstanceAs (Decidable (b.2 ≤ a.2))

instance : IsTotal (Filament × ℝ) simGe := ⟨fun a b => le_total b.2 a.2⟩

instance : IsTrans (Filament × ℝ) simGe := ⟨fun _ _ _ h1 h2 => le_trans h2 h1⟩

/-- The manufacturer pre-filter of `find_similar_filament_colors` (and
`find_similar_filament_color`): `if manufacturer:` is false for `None` and
for the empty string; otherwise keep records with case-insensitively equal
manufacturer name. -/
def filterByManufacturer (filaments : List Filament) (manufacturer : Option (List Char)) :
    List Filament :=
  match manufacturer with
  | none => filaments
  | some m =>
    if m = [] then filaments
    else filaments.filter (fun f => pyLower f.manufacturer = pyLower m)

noncomputable section

/-- The similarity-computing loop of `find_similar_filament_colors`: one
`(filament, similarity)` pair per candidate, in order; a `ValueError` from
hex parsing (`none`) aborts the whole loop, as a raised exception does. -/
def mapSimilarities (targetHex : List Char) : List Filament → Option (List (Filament × ℝ))
  | [] => some []
  | f :: fs =>
    match similarity76 targetHex f.hex with
    | none => none
    | some s => (mapSimilarities targetHex fs).map (fun rest => (f, s) :: rest)

/-- `find_similar_filament_colors` from `filament_colors.py`, parametrized by
the candidate list (the source obtains it from `get_filaments_with_hex()`):
optional manufacturer pre-filter, early `[]` on no candidates, similarity
against every candidate with the default `delta_e_cie76` method, Python's
stable descending sort by raw similarity, then the `matches[:limit]` slice.
`none` models a propagated `ValueError` from hex parsing, which in Python
aborts the whole call. -/
def find_similar_filament_colors (filaments : List Filament) (targetHex : List Char)
    (limit : ℤ) (manufacturer : Option (List Char)) : Option (List (Filament × ℝ)) :=
  let fs := filterByManufacturer filaments manufacturer
  if fs = [] then some []
  else
    match mapSimilarities targetHex fs with
    | none => none
    | some matchList => some (pySliceTo (List.insertionSort simGe matchList) limit)

end

/-! ## Sample records for concrete instantiations -/

/-- A sample record from the rank-1 manufacturer. -/
def samplePolymaker : Filament :=
  { manufacturer := (r"Polymaker").data, material := (r"PLA").data,
    color := (r"Teal").data, hex := (r"#008080").data }

/-- A sample record from the rank-10 manufacturer. -/
def sampleAtomic : Filament :=
  { manufacturer := (r"Atomic Filament").data, material := (r"PLA").data,
    color := (r"Teal").data, hex := (r"#008080").data }

/-- A sample record from an unranked manufacturer. -/
def sampleGeneric : Filament :=
  { manufacturer := (r"Generic").data, material := (r"PLA").data,
    color := (r"Black").data, hex := (r"#000000").data }

/-- A one-entry catalog for concrete instantiations. -/
def sampleCatalog : Catalog :=
  [((r"Mfr").data, [((r"PLA").data, [((r"Ruby").data,
    { hex := some ((r"#ff00Ab").data), source := some ((r"site").data) : ColorData })])])]

/-- The record `get_filaments_by_hex` builds from `sampleCatalog`. -/
def sampleHexRecord : Filament :=
  { manufacturer := (r"Mfr").data, material := (r"PLA").data,
    color := (r"Ruby").data, hex := (r"#FF00AB").data,
    source := some ((r"site").data) }

/-! ## Auxiliary lemmas: hex digits and parsing -/

lemma hexChar_facts (n : Nat) (h : n < 16) :
    isHexDigit (hexChar n) = true ∧ hexVal (hexChar n) = n := by
  interval_cases n <;> exact ⟨by decide, by decide⟩

lemma isHexDigit_ne {c : Char} (h : isHexDigit c = true) :
    pyIsSpace c = false ∧ c ≠ '#' ∧ c ≠ '+' ∧ c ≠ '-' ∧ c ≠ '_' ∧ c ≠ 'x' ∧ c ≠ 'X' := by
  refine ⟨?_, ?_, ?_, ?_, ?_, ?_, ?_⟩
  · by_contra hs
    rw [Bool.not_eq_false] at hs
    unfold pyIsSpace at hs
    simp only [Bool.or_eq_true, beq_iff_eq] at hs
    rcases hs with ((((rfl | rfl) | rfl) | rfl) | rfl) | rfl <;> exact absurd h (by decide)
  all_goals (rintro rfl; exact absurd h (by decide))

lemma dropWhile_eq_self_of_all {p : Char → Bool} {l : List Char}
    (h : ∀ c ∈ l, p c = false) : l.dropWhile p = l := by
  cases l with
  | nil => rfl
  | cons a t =>
    rw [List.dropWhile_cons, h a (List.mem_cons_self a t)]
    simp

lemma pyStripWs_eq_self {l : List Char} (h : ∀ c ∈ l, pyIsSpace c = false) :
    pyStripWs l = l := by
  unfold pyStripWs
  rw [dropWhile_eq_self_of_all h,
    dropWhile_eq_self_of_all (fun c hc => h c (List.mem_reverse.mp hc)),
    List.reverse_reverse]

lemma pyHexBody_two {c1 c2 : Char} (h1 : isHexDigit c1 = true)
    (h2 : isHexDigit c2 = true) (hu2 : c2 ≠ '_') (hx2 : c2 ≠ 'x') (hX2 : c2 ≠ 'X') :
    pyHexBody [c1, c2] = some (hexVal c1 * 16 + hexVal c2) := by
  have hbody : pyHexBody [c1, c2] =
      if c1 = '0' ∧ (c2 = 'x' ∨ c2 = 'X') then none else pyHexDigits [c1, c2] := rfl
  rw [hbody, if_neg (by rintro ⟨-, h | h⟩ <;> [exact hx2 h; exact hX2 h])]
  have hdig : pyHexDigits [c1, c2] =
      if isHexDigit c1 then pyHexDigitsAux [c2] (hexVal c1) else none := rfl
  rw [hdig, if_pos h1]
  have haux : pyHexDigitsAux [c2] (hexVal c1) =
      if c2 = '_' then none
      else if isHexDigit c2 then pyHexDigitsAux [] (hexVal c1 * 16 + hexVal c2)
      else none := rfl
  rw [haux, if_neg hu2, if_pos h2]
  rfl

lemma pyIntHex_two_digits {c1 c2 : Char} (h1 : isHexDigit c1 = true)
    (h2 : isHexDigit c2 = true) :
    pyIntHex [c1, c2] = some ((hexVal c1 * 16 + hexVal c2 : Nat) : Int) := by
  obtain ⟨hs1, _, hp1, hm1, _, _, _⟩ := isHexDigit_ne h1
  obtain ⟨hs2, _, _, _, hu2, hx2, hX2⟩ := isHexDigit_ne h2
  have hstrip : pyStripWs [c1, c2] = [c1, c2] := by
    apply pyStripWs_eq_self
    intro c hc
    simp only [List.mem_cons, List.not_mem_nil, or_false] at hc
    rcases hc with rfl | rfl
    · exact hs1
    · exact hs2
  have hint : pyIntHex [c1, c2] =
      (if c1 = '+' then (pyHexBody [c2]).map (fun n => (n : Int))
       else if c1 = '-' then (pyHexBody [c2]).map (fun n => -(n : Int))
       else (pyHexBody [c1, c2]).map (fun n => (n : Int))) := by
    unfold pyIntHex
    rw [hstrip]
  rw [hint, if_neg hp1, if_neg hm1, pyHexBody_two h1 h2 hu2 hx2 hX2]
  rfl

lemma format02x_eq {n : Nat} (h : n ≤ 255) :
    format02x n = [hexChar (n / 16), hexChar (n % 16)] := by
  by_cases h16 : n < 16
  · have hn : natToHex n = [hexChar n] := by rw [natToHex, if_pos h16]
    simp only [format02x, hn, List.length_cons, List.length_nil]
    rw [if_pos (by norm_num), Nat.div_eq_of_lt h16, Nat.mod_eq_of_lt h16]
    have h0 : hexChar 0 = '0' := by decide
    rw [h0]
  · have hdiv : n / 16 < 16 := by omega
    have hn : natToHex n = [hexChar (n / 16), hexChar (n % 16)] := by
      rw [natToHex, if_neg h16, natToHex, if_pos hdiv]
      rfl
    simp only [format02x, hn, List.length_cons, List.length_nil]
    rw [if_neg (by norm_num)]

/-! ## C6: hex/RGB roundtrip -/

/-- C6: for all byte values `r`, `g`, `b`, formatting with `rgb_to_hex` and
parsing back with `hex_to_rgb` is the identity:
`hex_to_rgb(rgb_to_hex(r,g,b)) == (r,g,b)`. -/
theorem hex_to_rgb_rgb_to_hex_roundtrip (r g b : Nat)
    (hr : r ≤ 255) (hg : g ≤ 255) (hb : b ≤ 255) :
    hex_to_rgb (rgb_to_hex r g b) = some ((r : Int), (g : Int), (b : Int)) := by
  obtain ⟨hd1, hv1⟩ := hexChar_facts (r / 16) (by omega)
  obtain ⟨hd2, hv2⟩ := hexChar_facts (r % 16) (by omega)
  obtain ⟨hd3, hv3⟩ := hexChar_facts (g / 16) (by omega)
  obtain ⟨hd4, hv4⟩ := hexChar_facts (g % 16) (by omega)
  obtain ⟨hd5, hv5⟩ := hexChar_facts (b / 16) (by omega)
  obtain ⟨hd6, hv6⟩ := hexChar_facts (b % 16) (by omega)
  unfold rgb_to_hex
  rw [format02x_eq hr, format02x_eq hg, format02x_eq hb]
  simp only [hex_to_rgb]
  unfold lstripHash
  simp only [List.cons_append, List.nil_append, List.dropWhile_cons]
  rw [if_pos (by norm_num), if_neg (by simp [(isHexDigit_ne hd1).2.1])]
  unfold pySlice2
  simp only [List.drop_zero, List.take_succ_cons, List.drop_succ_cons,
    List.take_zero, List.drop_nil, List.take_cons, List.take]
  rw [pyIntHex_two_digits hd1 hd2, pyIntHex_two_digits hd3 hd4,
    pyIntHex_two_digits hd5 hd6]
  rw [hv1, hv2, hv3, hv4, hv5, hv6]
  have er : r / 16 * 16 + r % 16 = r := by omega
  have eg : g / 16 * 16 + g % 16 = g := by omega
  have eb : b / 16 * 16 + b % 16 = b := by omega
  rw [er, eg, eb]

/-- C6 witness: a concrete roundtrip instance obtained from the theorem. -/
theorem hex_to_rgb_rgb_to_hex_roundtrip_witness :
    hex_to_rgb (rgb_to_hex 18 0 255) = some (18, 0, 255) :=
  hex_to_rgb_rgb_to_hex_roundtrip 18 0 255 (by decide) (by decide) (by decide)

/-! ## C1: malformed hex inputs -/

/-- C1 (counterexample): `"FFFFF"` is malformed (5 hex digits, not 6), yet
`hex_to_rgb` does not fail: Python's slices `[0:2],[2:4],[4:6]` are
`"FF","FF","F"`, all parseable, so it returns `(255, 255, 15)`. -/
theorem hex_to_rgb_wrong_length_succeeds :
    (lstripHash ((r"FFFFF").data)).length = 5 ∧
    hex_to_rgb ((r"FFFFF").data) = some (255, 255, 15) := by
  constructor
  · decide
  · decide

/-- C1 (amended): `hex_to_rgb` fails with `ParseError` whenever the
`#`-stripped input has fewer than 5 characters (the third slice is empty),
and succeeds on every 6-hex-digit input; but wrong-length inputs whose first
three slices still parse (stripped length 5, or longer than 6 with extra
characters ignored) succeed instead of failing. -/
theorem hex_to_rgb_parse_failure_spec (s : List Char) :
    ((lstripHash s).length < 5 → hex_to_rgb s = none) ∧
    (∀ c1 c2 c3 c4 c5 c6 : Char,
      lstripHash s = [c1, c2, c3, c4, c5, c6] →
      isHexDigit c1 = true → isHexDigit c2 = true → isHexDigit c3 = true →
      isHexDigit c4 = true → isHexDigit c5 = true → isHexDigit c6 = true →
      hex_to_rgb s = some (((hexVal c1 * 16 + hexVal c2 : Nat) : Int),
        ((hexVal c3 * 16 + hexVal c4 : Nat) : Int),
        ((hexVal c5 * 16 + hexVal c6 : Nat) : Int))) := by
  constructor
  · intro hlen
    have h3 : pySlice2 (lstripHash s) 4 = [] := by
      unfold pySlice2
      rw [List.drop_eq_nil_iff.mpr (by omega)]
      rfl
    simp only [hex_to_rgb]
    rw [h3]
    have hnone : pyIntHex [] = none := rfl
    rw [hnone]
    cases pyIntHex (pySlice2 (lstripHash s) 0) <;>
      cases pyIntHex (pySlice2 (lstripHash s) 2) <;> rfl
  · intro c1 c2 c3 c4 c5 c6 hdec h1 h2 h3 h4 h5 h6
    simp only [hex_to_rgb]
    rw [hdec]
    unfold pySlice2
    simp only [List.drop_zero, List.take_succ_cons, List.drop_succ_cons,
      List.take_zero, List.drop_nil, List.take_cons, List.take]
    rw [pyIntHex_two_digits h1 h2, pyIntHex_two_digits h3 h4,
      pyIntHex_two_digits h5 h6]

/-- C1 (amended) witness: a too-short input fails; a well-formed input
parses, via the amended theorem at concrete inputs. -/
theorem hex_to_rgb_parse_failure_spec_witness :
    hex_to_rgb ((r"ff0").data) = none ∧
    hex_to_rgb ((r"#00ff17").data) = some (0, 255, 23) := by
  constructor
  · exact (hex_to_rgb_parse_failure_spec _).1 (by decide)
  · have h := (hex_to_rgb_parse_failure_spec ((r"#00ff17").data)).2
      '0' '0' 'f' 'f' '1' '7' (by decide) (by decide) (by decide) (by decide)
      (by decide) (by decide) (by decide)
    rw [h]
    decide

/-! ## C5: the empty-string rank quirk -/

/-- C5: over any non-empty rank table, `get_manufacturer_rank` applied to the
empty string returns 1 unconditionally: the empty string is a substring of the
first ranked manufacturer, so the either-way containment test matches at
index 0. -/
theorem get_manufacturer_rank_empty_string (table : List (List Char))
    (h : table ≠ []) : get_manufacturer_rank_in table [] = 1 := by
  obtain ⟨t, ts, rfl⟩ := List.exists_cons_of_ne_nil h
  have hmatch : mfrMatches (pyLower []) t = true := by
    unfold mfrMatches pyIn
    simp only [Bool.or_eq_true, decide_eq_true_eq]
    exact Or.inr List.nil_infix
  unfold get_manufacturer_rank_in
  rw [if_neg (by simp)]
  simp only [List.findIdx?_cons, hmatch, if_true]

/-- C5 witness: the quirk at the repository's own (non-empty) rank table. -/
theorem get_manufacturer_rank_empty_string_witness :
    get_manufacturer_rank_in TOP_MANUFACTURERS [] = 1 :=
  get_manufacturer_rank_empty_string TOP_MANUFACTURERS (by decide)

/-! ## C4: the manufacturer bonus -/

/-- C4: `calculate_manufacturer_bonus` returns 0.0 when the rank is the
unranked sentinel 999 and `(11 − rank) × 0.56` otherwise; concretely
Polymaker (rank 1) gets 5.6, Atomic Filament (rank 10) gets 0.56, and an
unknown brand gets 0.0. -/
theorem calculate_manufacturer_bonus_spec :
    (∀ m : List Char,
      (get_manufacturer_rank m = 999 → calculate_manufacturer_bonus m = 0) ∧
      (get_manufacturer_rank m ≠ 999 →
        calculate_manufacturer_bonus m =
          ((11 - (get_manufacturer_rank m : ℤ) : ℤ) : ℝ) * 0.56)) ∧
    calculate_manufacturer_bonus ((r"Polymaker").data) = 5.6 ∧
    calculate_manufacturer_bonus ((r"Atomic Filament").data) = 0.56 ∧
    calculate_manufacturer_bonus ((r"Unknown Brand").data) = 0 := by
  have hgen : ∀ m : List Char,
      (get_manufacturer_rank m = 999 → calculate_manufacturer_bonus m = 0) ∧
      (get_manufacturer_rank m ≠ 999 →
        calculate_manufacturer_bonus m =
          ((11 - (get_manufacturer_rank m : ℤ) : ℤ) : ℝ) * 0.56) := by
    intro m
    constructor
    · intro h
      simp only [calculate_manufacturer_bonus, h, if_pos]
      norm_num
    · intro h
      simp only [calculate_manufacturer_bonus, if_neg h, RANK_MULTIPLIER]
  refine ⟨hgen, ?_, ?_, ?_⟩
  · have h1 : get_manufacturer_rank ((r"Polymaker").data) = 1 := by decide
    simp only [calculate_manufacturer_bonus, h1, RANK_MULTIPLIER]
    norm_num
  · have h10 : get_manufacturer_rank ((r"Atomic Filament").data) = 10 := by decide
    simp only [calculate_manufacturer_bonus, h10, RANK_MULTIPLIER]
    norm_num
  · have h999 : get_manufacturer_rank ((r"Unknown Brand").data) = 999 := by decide
    simp only [calculate_manufacturer_bonus, h999, RANK_MULTIPLIER]
    norm_num

/-- C4 witness: a concrete ranked manufacturer through the general clause. -/
theorem calculate_manufacturer_bonus_spec_witness :
    calculate_manufacturer_bonus ((r"Hatchbox").data) =
      ((11 - (get_manufacturer_rank ((r"Hatchbox").data) : ℤ) : ℤ) : ℝ) * 0.56 :=
  (calculate_manufacturer_bonus_spec.1 _).2 (by decide)

/-! ## C7: identical colors are 100% similar -/

lemma delta_e_cie76_self {x : List Char} {p : Int × Int × Int}
    (h : hex_to_rgb x = some p) : delta_e_cie76 x x = some 0 := by
  obtain ⟨r, g, b⟩ := p
  unfold delta_e_cie76
  rw [h]
  simp [sub_self, Real.sqrt_zero]

lemma delta_e_cie94_self {x : List Char} {p : Int × Int × Int}
    (h : hex_to_rgb x = some p) : delta_e_cie94 x x = some 0 := by
  obtain ⟨r, g, b⟩ := p
  unfold delta_e_cie94
  rw [h]
  simp [sub_self, Real.sqrt_zero, zero_div]

lemma euclidean_distance_rgb_self {x : List Char} {p : Int × Int × Int}
    (h : hex_to_rgb x = some p) : euclidean_distance_rgb x x = some 0 := by
  obtain ⟨r, g, b⟩ := p
  unfold euclidean_distance_rgb
  rw [h]
  simp [sub_self, Real.sqrt_zero]

lemma weighted_rgb_distance_self {x : List Char} {p : Int × Int × Int}
    (h : hex_to_rgb x = some p) : weighted_rgb_distance x x = some 0 := by
  obtain ⟨r, g, b⟩ := p
  unfold weighted_rgb_distance
  rw [h]
  simp [sub_self, Real.sqrt_zero]

/-- C7: for every parseable hex color `x` and each of the four recognized
methods, `color_similarity_percentage(x, x, method)` is exactly 100 (the
distance of a color to itself is exactly zero in every metric). -/
theorem color_similarity_self_is_100 (x : List Char) (p : Int × Int × Int)
    (hx : hex_to_rgb x = some p) (m : List Char)
    (hm : m = methodCie76 ∨ m = methodCie94 ∨ m = methodRgb ∨ m = methodWeightedRgb) :
    color_similarity_percentage x x m = SimResult.ok 100 := by
  rcases hm with rfl | rfl | rfl | rfl
  · unfold color_similarity_percentage
    rw [if_pos rfl, delta_e_cie76_self hx]
    unfold simFrom
    norm_num
  · unfold color_similarity_percentage
    rw [if_neg (by decide), if_pos rfl, delta_e_cie94_self hx]
    unfold simFrom
    norm_num
  · unfold color_similarity_percentage
    rw [if_neg (by decide), if_neg (by decide), if_pos rfl,
      euclidean_distance_rgb_self hx]
    unfold simFrom
    norm_num
  · unfold color_similarity_percentage
    rw [if_neg (by decide), if_neg (by decide), if_neg (by decide), if_pos rfl,
      weighted_rgb_distance_self hx]
    unfold simFrom
    norm_num

/-- C7 witness: a concrete self-comparison through each hypothesis. -/
theorem color_similarity_self_is_100_witness :
    color_similarity_percentage ((r"ff0000").data) ((r"ff0000").data) methodCie76 =
      SimResult.ok 100 :=
  color_similarity_self_is_100 _ (255, 0, 0) (by decide) _ (Or.inl rfl)

/-! ## C8: method dispatch, `UnknownMethod`, and the [0,100] range -/

lemma delta_e_cie76_some {h1 h2 : List Char} {p q : Int × Int × Int}
    (hp : hex_to_rgb h1 = some p) (hq : hex_to_rgb h2 = some q) :
    ∃ d, delta_e_cie76 h1 h2 = some d ∧ 0 ≤ d := by
  obtain ⟨r1, g1, b1⟩ := p
  obtain ⟨r2, g2, b2⟩ := q
  unfold delta_e_cie76
  rw [hp, hq]
  exact ⟨_, rfl, Real.sqrt_nonneg _⟩

lemma delta_e_cie94_some {h1 h2 : List Char} {p q : Int × Int × Int}
    (hp : hex_to_rgb h1 = some p) (hq : hex_to_rgb h2 = some q) :
    ∃ d, delta_e_cie94 h1 h2 = some d ∧ 0 ≤ d := by
  obtain ⟨r1, g1, b1⟩ := p
  obtain ⟨r2, g2, b2⟩ := q
  unfold delta_e_cie94
  rw [hp, hq]
  exact ⟨_, rfl, Real.sqrt_nonneg _⟩

lemma euclidean_distance_rgb_some {h1 h2 : List Char} {p q : Int × Int × Int}
    (hp : hex_to_rgb h1 = some p) (hq : hex_to_rgb h2 = some q) :
    ∃ d, euclidean_distance_rgb h1 h2 = some d ∧ 0 ≤ d := by
  obtain ⟨r1, g1, b1⟩ := p
  obtain ⟨r2, g2, b2⟩ := q
  unfold euclidean_distance_rgb
  rw [hp, hq]
  exact ⟨_, rfl, Real.sqrt_nonneg _⟩

lemma weighted_rgb_distance_some {h1 h2 : List Char} {p q : Int × Int × Int}
    (hp : hex_to_rgb h1 = some p) (hq : hex_to_rgb h2 = some q) :
    ∃ d, weighted_rgb_distance h1 h2 = some d ∧ 0 ≤ d := by
  obtain ⟨r1, g1, b1⟩ := p
  obtain ⟨r2, g2, b2⟩ := q
  unfold weighted_rgb_distance
  rw [hp, hq]
  exact ⟨_, rfl, Real.sqrt_nonneg _⟩

lemma sim_le_100 {d maxDistance : ℝ} (hd : 0 ≤ d) (hm : 0 < maxDistance) :
    max 0 (100 * (1 - d / maxDistance)) ≤ 100 := by
  apply max_le (by norm_num)
  have hdm : 0 ≤ d / maxDistance := div_nonneg hd hm.le
  nlinarith

lemma simFrom_ne_unknown (o : Option ℝ) (maxDistance : ℝ) :
    simFrom o maxDistance ≠ SimResult.unknownMethod := by
  cases o <;> simp [simFrom]

/-- C8: `color_similarity_percentage` yields the `UnknownMethod` error iff the
method is not one of the four recognized names; for a recognized method (and
parseable colors) it returns `max(0, 100·(1 − d/maxDistance))` with the
per-method normalizer 100, 100, 441.67, 765.0, a value in [0,100]. -/
theorem color_similarity_percentage_spec (h1 h2 m : List Char) :
    (color_similarity_percentage h1 h2 m = SimResult.unknownMethod ↔
      ¬(m = methodCie76 ∨ m = methodCie94 ∨ m = methodRgb ∨ m = methodWeightedRgb)) ∧
    (∀ p q : Int × Int × Int, hex_to_rgb h1 = some p → hex_to_rgb h2 = some q →
      (m = methodCie76 ∨ m = methodCie94 ∨ m = methodRgb ∨ m = methodWeightedRgb) →
      ∃ d maxDistance : ℝ, 0 ≤ d ∧
        ((m = methodCie76 ∧ delta_e_cie76 h1 h2 = some d ∧ maxDistance = 100.0) ∨
         (m = methodCie94 ∧ delta_e_cie94 h1 h2 = some d ∧ maxDistance = 100.0) ∨
         (m = methodRgb ∧ euclidean_distance_rgb h1 h2 = some d ∧ maxDistance = 441.67) ∨
         (m = methodWeightedRgb ∧ weighted_rgb_distance h1 h2 = some d ∧
           maxDistance = 765.0)) ∧
        color_similarity_percentage h1 h2 m =
          SimResult.ok (max 0 (100 * (1 - d / maxDistance))) ∧
        0 ≤ max 0 (100 * (1 - d / maxDistance)) ∧
        max 0 (100 * (1 - d / maxDistance)) ≤ 100) := by
  constructor
  · unfold color_similarity_percentage
    split_ifs with e1 e2 e3 e4
    · simp [simFrom_ne_unknown, e1]
    · simp [simFrom_ne_unknown, e2]
    · simp [simFrom_ne_unknown, e3]
    · simp [simFrom_ne_unknown, e4]
    · simp [e1, e2, e3, e4]
  · intro p q hp hq hm
    rcases hm with rfl | rfl | rfl | rfl
    · obtain ⟨d, hd, hd0⟩ := delta_e_cie76_some hp hq
      refine ⟨d, 100.0, hd0, Or.inl ⟨rfl, hd, rfl⟩, ?_, le_max_left _ _,
        sim_le_100 hd0 (by norm_num)⟩
      unfold color_similarity_percentage
      rw [if_pos rfl, hd]
      rfl
    · obtain ⟨d, hd, hd0⟩ := delta_e_cie94_some hp hq
      refine ⟨d, 100.0, hd0, Or.inr (Or.inl ⟨rfl, hd, rfl⟩), ?_, le_max_left _ _,
        sim_le_100 hd0 (by norm_num)⟩
      unfold color_similarity_percentage
      rw [if_neg (by decide), if_pos rfl, hd]
      rfl
    · obtain ⟨d, hd, hd0⟩ := euclidean_distance_rgb_some hp hq
      refine ⟨d, 441.67, hd0, Or.inr (Or.inr (Or.inl ⟨rfl, hd, rfl⟩)), ?_,
        le_max_left _ _, sim_le_100 hd0 (by norm_num)⟩
      unfold color_similarity_percentage
      rw [if_neg (by decide), if_neg (by decide), if_pos rfl, hd]
      rfl
    · obtain ⟨d, hd, hd0⟩ := weighted_rgb_distance_some hp hq
      refine ⟨d, 765.0, hd0, Or.inr (Or.inr (Or.inr ⟨rfl, hd, rfl⟩)), ?_,
        le_max_left _ _, sim_le_100 hd0 (by norm_num)⟩
      unfold color_similarity_percentage
      rw [if_neg (by decide), if_neg (by decide), if_neg (by decide), if_pos rfl, hd]
      rfl

/-- C8 witness: an unrecognized method errors; a recognized method on
concrete parseable colors returns an in-range value. -/
theorem color_similarity_percentage_spec_witness :
    color_similarity_percentage ((r"0a0b0c").data) ((r"0a0b0c").data) ((r"nope").data) =
      SimResult.unknownMethod ∧
    ∃ v : ℝ, color_similarity_percentage ((r"000000").data) ((r"ffffff").data) methodRgb =
      SimResult.ok v ∧ 0 ≤ v ∧ v ≤ 100 := by
  constructor
  · exact (color_similarity_percentage_spec _ _ _).1.mpr (by decide)
  · obtain ⟨d, maxDistance, hd0, hcase, hres, hge, hle⟩ :=
      (color_similarity_percentage_spec ((r"000000").data) ((r"ffffff").data) methodRgb).2
        (0, 0, 0) (255, 255, 255) (by decide) (by decide) (Or.inr (Or.inr (Or.inl rfl)))
    exact ⟨_, hres, hge, hle⟩

/-! ## C2: best weighted match -/

lemma pyMaxBy_spec {α : Type} (key : α → ℝ) :
    ∀ (l : List α) (b : α),
      ∃ pre post, b :: l = pre ++ pyMaxBy key b l :: post ∧
        (∀ x ∈ pre, key x < key (pyMaxBy key b l)) ∧
        (∀ x ∈ b :: l, key x ≤ key (pyMaxBy key b l)) := by
  intro l
  induction l with
  | nil =>
    intro b
    refine ⟨[], [], rfl, by simp, ?_⟩
    intro x hx
    rcases List.mem_cons.mp hx with rfl | hx
    · exact le_refl _
    · exact absurd hx (List.not_mem_nil x)
  | cons x xs ih =>
    intro b
    by_cases hbx : key b < key x
    · have hM : pyMaxBy key b (x :: xs) = pyMaxBy key x xs := by
        have hred : pyMaxBy key b (x :: xs) =
            if key b < key x then pyMaxBy key x xs else pyMaxBy key b xs := rfl
        rw [hred, if_pos hbx]
      obtain ⟨pre, post, hdec, hpre, hall⟩ := ih x
      have hbm : key b < key (pyMaxBy key x xs) :=
        lt_of_lt_of_le hbx (hall x (List.mem_cons_self _ _))
      rw [hM]
      refine ⟨b :: pre, post, ?_, ?_, ?_⟩
      · rw [List.cons_append, ← hdec]
      · intro y hy
        rcases List.mem_cons.mp hy with rfl | hy
        · exact hbm
        · exact hpre y hy
      · intro y hy
        rcases List.mem_cons.mp hy with rfl | hy
        · exact le_of_lt hbm
        · exact hall y hy
    · have hM : pyMaxBy key b (x :: xs) = pyMaxBy key b xs := by
        have hred : pyMaxBy key b (x :: xs) =
            if key b < key x then pyMaxBy key x xs else pyMaxBy key b xs := rfl
        rw [hred, if_neg hbx]
      push_neg at hbx
      obtain ⟨pre, post, hdec, hpre, hall⟩ := ih b
      rw [hM]
      cases pre with
      | nil =>
        simp only [List.nil_append] at hdec
        obtain ⟨hb, -⟩ := List.cons.inj hdec
        refine ⟨[], x :: xs, ?_, by simp, ?_⟩
        · simp only [List.nil_append]
          rw [← hb]
        · intro y hy
          rw [← hb]
          rcases List.mem_cons.mp hy with rfl | hy
          · exact le_refl _
          · rcases List.mem_cons.mp hy with rfl | hy
            · exact hbx
            · have hy' := hall y (List.mem_cons_of_mem _ hy)
              rwa [← hb] at hy'
      | cons p pre2 =>
        simp only [List.cons_append] at hdec
        obtain ⟨hb, hxs⟩ := List.cons.inj hdec
        have hpm : key b < key (pyMaxBy key b xs) := by
          have hp' := hpre p (List.mem_cons_self _ _)
          rwa [← hb] at hp'
        refine ⟨b :: x :: pre2, post, ?_, ?_, ?_⟩
        · conv_lhs => rw [hxs]
          simp [List.cons_append]
        · intro y hy
          rcases List.mem_cons.mp hy with rfl | hy
          · exact hpm
          · rcases List.mem_cons.mp hy with rfl | hy
            · exact lt_of_le_of_lt hbx hpm
            · exact hpre y (List.mem_cons_of_mem _ hy)
        · intro y hy
          rcases List.mem_cons.mp hy with rfl | hy
          · exact hall _ (List.mem_cons_self _ _)
          · rcases List.mem_cons.mp hy with rfl | hy
            · exact le_trans hbx (hall _ (List.mem_cons_self _ _))
            · exact hall y (List.mem_cons_of_mem _ hy)

/-- C2: `get_best_top_manufacturer_match` filters out records value-equal to a
displayed record and records whose manufacturer is not a top manufacturer; it
returns `(None, None)` iff nothing survives the filter (in particular on an
empty input, or when every candidate — even the top scorer — is excluded);
otherwise it returns the first element in iteration order attaining the
maximum weighted score among the survivors. -/
theorem get_best_top_manufacturer_match_spec (matchList : List (Filament × ℝ))
    (displayed : List Filament) :
    (get_best_top_manufacturer_match matchList displayed = none ↔
      matchList.filter (fun p => !(displayed.contains p.1) &&
        is_top_manufacturer p.1.manufacturer) = []) ∧
    (∀ m, get_best_top_manufacturer_match matchList displayed = some m →
      ∃ pre post,
        matchList.filter (fun p => !(displayed.contains p.1) &&
          is_top_manufacturer p.1.manufacturer) = pre ++ m :: post ∧
        (∀ x ∈ pre, calculate_weighted_score x.2 x.1.manufacturer <
          calculate_weighted_score m.2 m.1.manufacturer) ∧
        (∀ x ∈ matchList.filter (fun p => !(displayed.contains p.1) &&
            is_top_manufacturer p.1.manufacturer),
          calculate_weighted_score x.2 x.1.manufacturer ≤
            calculate_weighted_score m.2 m.1.manufacturer)) := by
  constructor
  · cases hfl : matchList.filter (fun p => !(displayed.contains p.1) &&
        is_top_manufacturer p.1.manufacturer) with
    | nil =>
      rw [get_best_top_manufacturer_match, hfl]
      simp
    | cons a t =>
      rw [get_best_top_manufacturer_match, hfl]
      simp
  · intro m hm
    cases hfl : matchList.filter (fun p => !(displayed.contains p.1) &&
        is_top_manufacturer p.1.manufacturer) with
    | nil =>
      rw [get_best_top_manufacturer_match, hfl] at hm
      exact absurd hm (by simp)
    | cons a t =>
      rw [get_best_top_manufacturer_match, hfl] at hm
      have hmeq : pyMaxBy (fun p : Filament × ℝ =>
          calculate_weighted_score p.2 p.1.manufacturer) a t = m := by
        simpa using hm
      obtain ⟨pre, post, hdec, hpre, hall⟩ :=
        pyMaxBy_spec (fun p : Filament × ℝ =>
          calculate_weighted_score p.2 p.1.manufacturer) t a
      rw [hmeq] at hdec hpre hall
      refine ⟨pre, post, hdec, hpre, ?_⟩
      intro y hy
      exact hall y hy

/-- C2 witness: the no-candidate case, and a concrete two-candidate scan in
which the weighted maximum (Polymaker at similarity 95) dominates a
higher-similarity rank-10 candidate (Atomic Filament at 100). -/
theorem get_best_top_manufacturer_match_spec_witness :
    get_best_top_manufacturer_match ([] : List (Filament × ℝ)) [] = none ∧
    calculate_weighted_score 100 sampleAtomic.manufacturer ≤
      calculate_weighted_score 95 samplePolymaker.manufacturer := by
  constructor
  · exact (get_best_top_manufacturer_match_spec [] []).1.mpr rfl
  · have hb1 : calculate_manufacturer_bonus samplePolymaker.manufacturer = 5.6 := by
      have h1 : get_manufacturer_rank samplePolymaker.manufacturer = 1 := by decide
      simp only [calculate_manufacturer_bonus, h1, RANK_MULTIPLIER]
      norm_num
    have hb10 : calculate_manufacturer_bonus sampleAtomic.manufacturer = 0.56 := by
      have h10 : get_manufacturer_rank sampleAtomic.manufacturer = 10 := by decide
      simp only [calculate_manufacturer_bonus, h10, RANK_MULTIPLIER]
      norm_num
    have hfl : [((sampleAtomic : Filament), (100 : ℝ)), (samplePolymaker, 95)].filter
        (fun p => !(([] : List Filament).contains p.1) &&
          is_top_manufacturer p.1.manufacturer) =
        [(sampleAtomic, 100), (samplePolymaker, 95)] := by
      have ht1 : is_top_manufacturer sampleAtomic.manufacturer = true := by decide
      have ht2 : is_top_manufacturer samplePolymaker.manufacturer = true := by decide
      simp [List.filter, ht1, ht2]
    have hres : get_best_top_manufacturer_match
        [(sampleAtomic, 100), (samplePolymaker, 95)] [] =
        some (samplePolymaker, 95) := by
      rw [get_best_top_manufacturer_match, hfl]
      have hlt : calculate_weighted_score 100 sampleAtomic.manufacturer <
          calculate_weighted_score 95 samplePolymaker.manufacturer := by
        simp only [calculate_weighted_score, hb1, hb10]
        norm_num
      have hmax : pyMaxBy (fun p : Filament × ℝ =>
          calculate_weighted_score p.2 p.1.manufacturer)
          (sampleAtomic, 100) [(samplePolymaker, 95)] = (samplePolymaker, 95) := by
        have hstep : pyMaxBy (fun p : Filament × ℝ =>
            calculate_weighted_score p.2 p.1.manufacturer)
            (sampleAtomic, 100) [(samplePolymaker, 95)] =
            if calculate_weighted_score 100 sampleAtomic.manufacturer <
                calculate_weighted_score 95 samplePolymaker.manufacturer then
              pyMaxBy (fun p : Filament × ℝ =>
                calculate_weighted_score p.2 p.1.manufacturer) (samplePolymaker, 95) []
            else
              pyMaxBy (fun p : Filament × ℝ =>
                calculate_weighted_score p.2 p.1.manufacturer) (sampleAtomic, 100) [] := rfl
        rw [hstep, if_pos hlt]
        rfl
      simp [hmax]
    obtain ⟨pre, post, hdec, hpre, hall⟩ :=
      (get_best_top_manufacturer_match_spec
        [(sampleAtomic, 100), (samplePolymaker, 95)] []).2 _ hres
    exact hall (sampleAtomic, 100) (by rw [hfl]; exact List.mem_cons_self _ _)

/-! ## C3 and C9: nearest matches, stable sort and slice semantics -/

lemma filter_orderedInsert_sim (v : ℝ) (x : Filament × ℝ) (l : List (Filament × ℝ)) :
    (l.orderedInsert simGe x).filter (fun p => decide (p.2 = v)) =
      if x.2 = v then x :: l.filter (fun p => decide (p.2 = v))
      else l.filter (fun p => decide (p.2 = v)) := by
  induction l with
  | nil =>
    by_cases hx : x.2 = v <;> simp [List.orderedInsert, List.filter, hx]
  | cons y ys ih =>
    rw [List.orderedInsert]
    by_cases hxy : simGe x y
    · rw [if_pos hxy]
      by_cases hx : x.2 = v <;> by_cases hy : y.2 = v <;>
        simp [List.filter, hx, hy]
    · rw [if_neg hxy]
      have hlt : x.2 < y.2 := lt_of_not_le hxy
      by_cases hy : y.2 = v
      · have hx : ¬ x.2 = v := fun hx => absurd (hx.trans hy.symm) (ne_of_lt hlt)
        simp [List.filter, hy, hx, ih]
      · by_cases hx : x.2 = v <;> simp [List.filter, hy, hx, ih]

lemma filter_insertionSort_sim (v : ℝ) (l : List (Filament × ℝ)) :
    (List.insertionSort simGe l).filter (fun p => decide (p.2 = v)) =
      l.filter (fun p => decide (p.2 = v)) := by
  induction l with
  | nil => rfl
  | cons x xs ih =>
    rw [List.insertionSort, filter_orderedInsert_sim]
    by_cases hx : x.2 = v <;> simp [List.filter, hx, ih]

/-- C3: `find_similar_filament_colors` computes the default-method (deltaE76)
similarity against every candidate surviving the optional manufacturer
pre-filter (hypothesis `hm`), sorts descending by raw similarity with a sort
that is a permutation, pairwise-descending, and stable (equal-similarity
entries keep their candidate-list order), and returns the first `limit`
entries. -/
theorem find_similar_filament_colors_spec (filaments : List Filament)
    (targetHex : List Char) (limit : ℤ) (manufacturer : Option (List Char))
    (matchList : List (Filament × ℝ)) (hlim : 0 < limit)
    (hm : mapSimilarities targetHex (filterByManufacturer filaments manufacturer) =
      some matchList) :
    ∃ sortedM : List (Filament × ℝ),
      find_similar_filament_colors filaments targetHex limit manufacturer =
        some (sortedM.take limit.toNat) ∧
      sortedM.Perm matchList ∧
      sortedM.Sorted simGe ∧
      ∀ v : ℝ, sortedM.filter (fun p => decide (p.2 = v)) =
        matchList.filter (fun p => decide (p.2 = v)) := by
  refine ⟨List.insertionSort simGe matchList, ?_, List.perm_insertionSort _ _,
    List.sorted_insertionSort _ _, fun v => filter_insertionSort_sim v matchList⟩
  unfold find_similar_filament_colors
  by_cases hfs : filterByManufacturer filaments manufacturer = []
  · rw [if_pos hfs]
    rw [hfs] at hm
    have hnil : matchList = [] := by
      have h0 : mapSimilarities targetHex [] = some [] := rfl
      rw [h0] at hm
      exact (Option.some.injEq _ _ ▸ hm).symm
    rw [hnil]
    simp [List.take_nil]
  · rw [if_neg hfs, hm]
    simp only [pySliceTo, if_neg (by omega : ¬ limit < 0)]

/-- Helper for concrete witnesses: the single-candidate match list at a
self-matching target. -/
lemma sampleGeneric_matchList :
    mapSimilarities ((r"#000000").data) (filterByManufacturer [sampleGeneric] none) =
      some [(sampleGeneric, 100)] := by
  have h0 : delta_e_cie76 ((r"#000000").data) ((r"#000000").data) = some 0 :=
    delta_e_cie76_self (p := (0, 0, 0)) (by decide)
  have hsim : similarity76 ((r"#000000").data) sampleGeneric.hex = some 100 := by
    unfold similarity76
    rw [show sampleGeneric.hex = ((r"#000000").data) from rfl, h0]
    norm_num
  have hfil : filterByManufacturer [sampleGeneric] none = [sampleGeneric] := rfl
  rw [hfil]
  unfold mapSimilarities
  rw [hsim]
  rfl

/-- C3 witness: a concrete one-candidate catalog through the theorem. -/
theorem find_similar_filament_colors_spec_witness :
    find_similar_filament_colors [sampleGeneric] ((r"#000000").data) 1 none =
      some [(sampleGeneric, 100)] := by
  obtain ⟨sortedM, hres, hperm, hsort, hstab⟩ :=
    find_similar_filament_colors_spec [sampleGeneric] ((r"#000000").data) 1 none
      [(sampleGeneric, 100)] (by norm_num) sampleGeneric_matchList
  rw [hres, List.perm_singleton.mp hperm]
  rfl

/-- C9: the Python slice semantics of the `limit` argument: limit 0 returns
the empty list, and a negative limit `−n` returns all matches except the `n`
final (lowest-similarity) entries of the descending-sorted match list. -/
theorem find_similar_filament_colors_limit_slice (filaments : List Filament)
    (targetHex : List Char) (manufacturer : Option (List Char))
    (matchList : List (Filament × ℝ))
    (hm : mapSimilarities targetHex (filterByManufacturer filaments manufacturer) =
      some matchList) :
    find_similar_filament_colors filaments targetHex 0 manufacturer = some [] ∧
    ∀ n : ℕ, 0 < n →
      find_similar_filament_colors filaments targetHex (-(n : ℤ)) manufacturer =
        some ((List.insertionSort simGe matchList).take
          ((List.insertionSort simGe matchList).length - n)) := by
  by_cases hfs : filterByManufacturer filaments manufacturer = []
  · rw [hfs] at hm
    have hnil : matchList = [] := by
      have h0 : mapSimilarities targetHex [] = some [] := rfl
      rw [h0] at hm
      exact (Option.some.injEq _ _ ▸ hm).symm
    constructor
    · unfold find_similar_filament_colors
      rw [if_pos hfs]
    · intro n hn
      unfold find_similar_filament_colors
      rw [if_pos hfs, hnil]
      simp [List.take_nil]
  · constructor
    · unfold find_similar_filament_colors
      rw [if_neg hfs, hm]
      simp only [pySliceTo, if_neg (by omega : ¬ (0 : ℤ) < 0)]
      rfl
    · intro n hn
      unfold find_similar_filament_colors
      rw [if_neg hfs, hm]
      simp only [pySliceTo, if_pos (by omega : -(n : ℤ) < 0)]
      have hcast : (((List.insertionSort simGe matchList).length : ℤ) + -(n : ℤ)).toNat =
          (List.insertionSort simGe matchList).length - n := by omega
      rw [hcast]

/-- C9 witness: limit 0 and limit −1 on a concrete one-candidate catalog. -/
theorem find_similar_filament_colors_limit_slice_witness :
    find_similar_filament_colors [sampleGeneric] ((r"#000000").data) 0 none = some [] ∧
    find_similar_filament_colors [sampleGeneric] ((r"#000000").data)
      (-((1 : ℕ) : ℤ)) none = some [] := by
  have h := find_similar_filament_colors_limit_slice [sampleGeneric]
    ((r"#000000").data) none [(sampleGeneric, 100)] sampleGeneric_matchList
  refine ⟨h.1, ?_⟩
  have h2 := h.2 1 (by norm_num)
  rw [h2]
  rfl

/-! ## C10: exact hex match normalization and iteration order -/

/-- C10: every record returned by `get_filaments_by_hex` has its `hex` field
rewritten to `'#'` followed by the uppercase `#`-stripped hex digits, equal to
`'#'` plus the normalized query — whatever the casing or `#` decoration of the
query or of the stored catalog value — and the records are exactly the
matching entries of the flattened catalog, in catalog iteration order. -/
theorem get_filaments_by_hex_spec (catalog : Catalog) (hexCode : List Char) :
    (∀ f ∈ get_filaments_by_hex catalog hexCode,
      f.hex = '#' :: pyUpper (stripHash hexCode)) ∧
    get_filaments_by_hex catalog hexCode =
      (flattenCatalog catalog).filterMap (fun e =>
        mkHexMatch (pyUpper (stripHash hexCode)) e.1 e.2.1 e.2.2.1 e.2.2.2) := by
  constructor
  · intro f hf
    unfold get_filaments_by_hex at hf
    simp only [List.mem_flatMap, List.mem_filterMap] at hf
    obtain ⟨me, hme, te, hte, ce, hce, hmk⟩ := hf
    simp only [mkHexMatch] at hmk
    by_cases hcond : pyUpper (stripHash (ce.2.hex.getD [])) = pyUpper (stripHash hexCode)
    · rw [if_pos hcond] at hmk
      have hrec := Option.some.inj hmk
      subst hrec
      show '#' :: pyUpper (stripHash (ce.2.hex.getD [])) = '#' :: pyUpper (stripHash hexCode)
      rw [hcond]
    · rw [if_neg hcond] at hmk
      exact absurd hmk (by simp)
  · unfold get_filaments_by_hex flattenCatalog
    simp only [List.filterMap_flatMap, List.filterMap_map, Function.comp_def]

/-- C10 witness: a concrete catalog entry stored as `"#ff00Ab"`, queried as
`"fF00ab"`, is returned with its hex normalized to `"#FF00AB"`. -/
theorem get_filaments_by_hex_spec_witness :
    ((r"#FF00AB").data) = '#' :: pyUpper (stripHash ((r"fF00ab").data)) := by
  have h := (get_filaments_by_hex_spec sampleCatalog ((r"fF00ab").data)).1
    sampleHexRecord (by decide)
  exact h

end TeamTone
